import Mathlib

/-!
Shallow embedding of the passkey ceremony orchestrator
(packages/core/src/lib/passkey and packages/core/src/lib/routes).

External collaborators (ceremony library, cookie signer, session lookup,
adapter storage) are modelled as explicit parameters: the ceremony library
as an oracle structure, the decoded challenge cookie and the session email
as inputs, and the adapter as a record of optionally present methods
(mirroring the duck-typed capability checks in the source).
-/

set_option maxHeartbeats 1000000

/-- Decidable equality for `Except`, used to evaluate concrete runs. -/
instance {ε α : Type} [DecidableEq ε] [DecidableEq α] : DecidableEq (Except ε α) := fun x y =>
  match x, y with
  | .error a, .error b =>
    if h : a = b then .isTrue (by rw [h]) else .isFalse (fun hc => by cases hc; exact h rfl)
  | .error _, .ok _ => .isFalse (fun hc => by cases hc)
  | .ok _, .error _ => .isFalse (fun hc => by cases hc)
  | .ok a, .ok b =>
    if h : a = b then .isTrue (by rw [h]) else .isFalse (fun hc => by cases hc; exact h rfl)

/-- Relaying party configuration (src/packages/core/src/providers/passkey.ts). -/
structure RelayingPartyConfig where
  name : String
  id : String
  origin : String
deriving DecidableEq

/-- Resolved passkey provider configuration (src/packages/core/src/providers/passkey.ts,
`PasskeyConfig`): id, display name, provider type and the relaying party. -/
structure PasskeyConfig where
  id : String
  name : String
  type : String
  relayingParty : RelayingPartyConfig
deriving DecidableEq

/-- User-supplied provider configuration (`PasskeyInputConfig`): the relaying
party is required, id and name may be overridden. -/
structure PasskeyInputConfig where
  id : Option String
  name : Option String
  relayingParty : RelayingPartyConfig
deriving DecidableEq

/-- The `Passkey` provider factory (src/packages/core/src/providers/passkey.ts):
defaults id to "passkey" and name to "Passkey", lets the config override them by
spreading, and forces `type` to "passkey" last. -/
def Passkey (config : PasskeyInputConfig) : PasskeyConfig :=
  { id := config.id.getD "passkey"
    name := config.name.getD "Passkey"
    type := "passkey"
    relayingParty := config.relayingParty }

/-- Adapter-level user record (`AdapterUser`): `emailVerified` is `none` for null,
`name` is optional. Dates are abstracted as naturals. -/
structure AdapterUser where
  id : String
  name : Option String
  email : String
  emailVerified : Option Nat
deriving DecidableEq

/-- Account record (src/packages/core `Account` as used by verify.ts). -/
structure Account where
  userId : String
  type : String
  provider : String
  providerAccountId : String
deriving DecidableEq

/-- Stored authenticator record (`AdapterAuthenticator`). Byte arrays
(credential id, public key) are modelled as lists of naturals. -/
structure AdapterAuthenticator where
  providerAccountId : String
  counter : Nat
  credentialID : List Nat
  credentialBackedUp : Bool
  credentialDeviceType : String
  credentialPublicKey : List Nat
  transports : Option (List String)
deriving DecidableEq

/-- The duck-typed adapter: each method the passkey code may call is optionally
present, mirroring the runtime capability checks in the source.
`updateAuthenticatorCounter` returns `Except` so an implementation can throw;
because it is the single storage write, writes are additionally recorded as an
explicit trace by the verifier model. -/
structure Adapter where
  getUserByEmail : Option (String → Option AdapterUser)
  listLinkedAccounts : Option (String → Option (List Account))
  listAuthenticatorsByAccountId : Option (String → Option (List AdapterAuthenticator))
  getAuthenticator : Option (List Nat → Option AdapterAuthenticator)
  getUserByAccount : Option (String → String → Option AdapterUser)
  updateAuthenticatorCounter : Option (AdapterAuthenticator → Nat → Except String Unit)

/-- The slice of `InternalOptions` the passkey code reads: the (optional)
adapter and the provider configuration. The logger is modelled as an explicit
log trace in the verifier results. -/
structure Options where
  adapter : Option Adapter
  provider : PasskeyConfig

/-- Payload of the signed challenge cookie
(src/packages/core/src/lib/passkey/types.ts, `PasskeyOptionsCookieData`). -/
structure PasskeyOptionsCookieData where
  challenge : String
  providerAccountId : Option String
deriving DecidableEq

/-- JavaScript truthiness of an optional string: undefined and the empty
string are falsy. -/
def truthyStr : Option String → Bool
  | none => false
  | some s => !(s == "")

/-- Credential descriptor passed to the ceremony library in
`excludeCredentials` / `allowCredentials` (verify.ts options half). -/
structure CredDescriptor where
  id : List Nat
  type : String
  transports : Option (List String)
deriving DecidableEq

/-- `authenticatorSelection` field of a registration options request. -/
structure AuthenticatorSelection where
  residentKey : String
  userVerification : String
  requireResidentKey : Bool
deriving DecidableEq

/-- The argument record `registrationOptions` passes to the ceremony library
function `generateRegistrationOptions`. -/
structure RegistrationOptionsRequest where
  userID : String
  userName : String
  userDisplayName : String
  rpID : String
  rpName : String
  excludeCredentials : Option (List CredDescriptor)
  authenticatorSelection : AuthenticatorSelection
deriving DecidableEq

/-- The argument record `authenticationOptions` passes to the ceremony library
function `generateAuthenticationOptions`. -/
structure AuthenticationOptionsRequest where
  rpID : String
  allowCredentials : Option (List CredDescriptor)
  userVerification : String
deriving DecidableEq

/-- Ceremony library output for registration: the orchestrator only reads the
`challenge` and the generated `user.id` (spec section 3, CeremonyOptions). -/
structure RegistrationOptionsJSON where
  challenge : String
  userId : String
deriving DecidableEq

/-- Ceremony library output for authentication: the orchestrator only reads
the `challenge`. -/
structure AuthenticationOptionsJSON where
  challenge : String
deriving DecidableEq

/-- The ceremony library option generators, as an oracle: the orchestrator
treats their outputs as abstract beyond challenge and generated user id. -/
structure CeremonyLib where
  generateRegistrationOptions : RegistrationOptionsRequest → RegistrationOptionsJSON
  generateAuthenticationOptions : AuthenticationOptionsRequest → AuthenticationOptionsJSON

/-- Map a stored authenticator to the credential descriptor sent to the
ceremony library (the inline lambda in both option generators). -/
def credDescriptorOf (a : AdapterAuthenticator) : CredDescriptor :=
  { id := a.credentialID, type := "public-key", transports := a.transports }

/-- `getUserAndAuthenticators` (verify.ts options half): user by email, the
passkey-provider account among the linked accounts, and the stored
authenticator list of that account. Throws when the adapter is missing.
Modelled from the spec: `assertAdapterImplementsMethods` (the adapters module
is not under src/) throws a configuration error when the adapter lacks any of
`getUserByEmail`, `listLinkedAccounts`, `listAuthenticatorsByAccountId`. -/
def getUserAndAuthenticators (opts : Options) (email : Option String) :
    Except String (Option (List AdapterAuthenticator) × Option AdapterUser) :=
  match opts.adapter with
  | none => .error "MissingAdapter: WebaAuthn getUserAndAuthenticators requires an adapter."
  | some adapter =>
    match adapter.getUserByEmail, adapter.listLinkedAccounts,
        adapter.listAuthenticatorsByAccountId with
    | some getUserByEmail, some listLinkedAccounts, some listAuthenticatorsByAccountId =>
      let user : Option AdapterUser :=
        match email with
        | some e => if e == "" then none else getUserByEmail e
        | none => none
      let accounts : List Account :=
        match user with
        | some u => (listLinkedAccounts u.id).getD []
        | none => []
      let account : Option Account := accounts.find? (fun a => a.provider == opts.provider.id)
      let authenticators : Option (List AdapterAuthenticator) :=
        match account with
        | some acc => listAuthenticatorsByAccountId acc.providerAccountId
        | none => none
      .ok (authenticators, user)
    | _, _, _ =>
      .error "MissingAdapterMethods: WebaAuthn getUserAndAuthenticators requires an adapter that implements getUserByEmail, listLinkedAccounts, listAuthenticatorsByAccountId."

/-- `authenticationOptions` (verify.ts): builds the request for the ceremony
library; `allowCredentials` is the mapped authenticator list when the lookup
chain produced one. Returns the request together with the library output. -/
def authenticationOptions (lib : CeremonyLib) (opts : Options) (email : Option String) :
    Except String (AuthenticationOptionsRequest × AuthenticationOptionsJSON) := do
  let (authenticators, _) ← getUserAndAuthenticators opts email
  let req : AuthenticationOptionsRequest :=
    { rpID := opts.provider.relayingParty.id
      allowCredentials := authenticators.map (fun l => l.map credDescriptorOf)
      userVerification := "preferred" }
  .ok (req, lib.generateAuthenticationOptions req)

/-- `registrationOptions` (verify.ts): excludes the existing credentials
of the account, uses the existing user id or the fresh random id `freshId`
(modelling `randomString(32)`), and fixes the authenticator selection flags.
Returns the request together with the library output. -/
def registrationOptions (lib : CeremonyLib) (opts : Options) (freshId : String)
    (email : String) :
    Except String (RegistrationOptionsRequest × RegistrationOptionsJSON) := do
  let (authenticators, user) ← getUserAndAuthenticators opts (some email)
  let userID := (user.map (fun u => u.id)).getD freshId
  let userName := ((user.bind fun u => u.name).orElse (fun _ => user.map fun u => u.email)).getD email
  let userDisplayName := (user.bind fun u => u.name).getD userName
  let req : RegistrationOptionsRequest :=
    { userID := userID
      userName := userName
      userDisplayName := userDisplayName
      rpID := opts.provider.relayingParty.id
      rpName := opts.provider.relayingParty.name
      excludeCredentials := authenticators.map (fun l => l.map credDescriptorOf)
      authenticatorSelection :=
        { residentKey := "preferred", userVerification := "preferred", requireResidentKey := true } }
  .ok (req, lib.generateRegistrationOptions req)

/-- Outcome of an options request: a 4xx error body, or a 200 response with
the ceremony options and the payload handed to the cookie signer. Thrown
errors are the `Except.error` side of the functions below. -/
inductive OptionsResponse where
  | errorResponse (status : Nat) (body : String)
  | authResponse (options : AuthenticationOptionsJSON) (cookie : PasskeyOptionsCookieData)
  | regResponse (options : RegistrationOptionsJSON) (cookie : PasskeyOptionsCookieData)
deriving DecidableEq

/-- `doRegister` (src/packages/core/src/lib/passkey/types.ts): generate
registration options, sign a cookie carrying the challenge and the generated
user id, return both. The routes handler inlines the same statements. -/
def doRegister (lib : CeremonyLib) (opts : Options) (freshId : String) (email : String) :
    Except String OptionsResponse := do
  let (_, regOptions) ← registrationOptions lib opts freshId email
  .ok (.regResponse regOptions
    { providerAccountId := some regOptions.userId, challenge := regOptions.challenge })

/-- `doAuthenticate` (src/packages/core/src/lib/passkey/types.ts): generate
authentication options, sign a cookie carrying only the challenge, return
both. The routes handler inlines the same statements. -/
def doAuthenticate (lib : CeremonyLib) (opts : Options) (email : Option String) :
    Except String OptionsResponse := do
  let (_, authOptions) ← authenticationOptions lib opts email
  .ok (.authResponse authOptions
    { challenge := authOptions.challenge, providerAccountId := none })

/-- The optional chain `adapter?.getUserByEmail(queryEmail)` used by both
options handlers: undefined adapter yields undefined; an adapter lacking the
method raises a TypeError (a thrown, fatal error). -/
def optionalChainGetUserByEmail (opts : Options) (email : String) :
    Except String (Option AdapterUser) :=
  match opts.adapter with
  | none => .ok none
  | some adapter =>
    match adapter.getUserByEmail with
    | some f => .ok (f email)
    | none => .error "TypeError: adapter.getUserByEmail is not a function"

namespace PasskeyRoutes

/-- The if/else options handler
(src/packages/core/src/lib/routes/passkey-options.ts, `passkeyOptions`).
`sessionUserEmail` is the collaborator-provided session email, `freshId`
models `randomString(32)` inside `registrationOptions`. -/
def passkeyOptions (lib : CeremonyLib) (opts : Options) (freshId : String)
    (sessionUserEmail : Option String) (action : Option String)
    (queryEmail : Option String) : Except String OptionsResponse := do
  let email := sessionUserEmail.orElse fun _ => queryEmail
  let sel : Sum OptionsResponse String ←
    if truthyStr action then pure (Sum.inr (action.getD ""))
    else if truthyStr sessionUserEmail then
      if truthyStr queryEmail then pure (Sum.inr "register")
      else pure (Sum.inl (OptionsResponse.errorResponse 400 "email is required to register a new passkey"))
    else
      if truthyStr queryEmail then do
        let user ← optionalChainGetUserByEmail opts (queryEmail.getD "")
        match user with
        | some _ => pure (Sum.inr "authenticate")
        | none => pure (Sum.inr "register")
      else pure (Sum.inl (OptionsResponse.errorResponse 400 "email is required to register"))
  match sel with
  | .inl resp => pure resp
  | .inr selectedAction =>
    if selectedAction == "authenticate" then
      doAuthenticate lib opts email
    else if selectedAction == "register" then
      if !(truthyStr email) then pure (OptionsResponse.errorResponse 400 "email is required for registration")
      else doRegister lib opts freshId (email.getD "")
    else pure (OptionsResponse.errorResponse 400 "invalid action")

end PasskeyRoutes

namespace PasskeyTypes

/-- The switch-based options handler
(src/packages/core/src/lib/passkey/types.ts, `passkeyOptions`). -/
def passkeyOptions (lib : CeremonyLib) (opts : Options) (freshId : String)
    (sessionUserEmail : Option String) (action : Option String)
    (queryEmail : Option String) : Except String OptionsResponse := do
  let loggedIn := truthyStr sessionUserEmail
  let providedQueryEmail := truthyStr queryEmail
  let userWithEmailExists ←
    if providedQueryEmail then do
      let existingUser ← optionalChainGetUserByEmail opts (queryEmail.getD "")
      pure existingUser.isSome
    else pure false
  match action with
  | some a =>
    if a == "authenticate" then
      if !loggedIn then doAuthenticate lib opts queryEmail
      else pure (OptionsResponse.errorResponse 400 "Invalid action/email combination")
    else if a == "register" then
      if (loggedIn != providedQueryEmail) && !userWithEmailExists then
        doRegister lib opts freshId ((sessionUserEmail.orElse fun _ => queryEmail).getD "")
      else pure (OptionsResponse.errorResponse 400 "Invalid action/email combination")
    else pure (OptionsResponse.errorResponse 400 "Invalid action/email combination")
  | none =>
    if !loggedIn then
      if providedQueryEmail == userWithEmailExists then doAuthenticate lib opts queryEmail
      else doRegister lib opts freshId (queryEmail.getD "")
    else pure (OptionsResponse.errorResponse 400 "Invalid action/email combination")

end PasskeyTypes

/-- Base64 value of a single character. Characters outside the alphabet
(including padding) are skipped, as `Buffer.from(_, "base64")` ignores them;
both the standard and the url-safe alphabet are accepted. -/
def base64CharVal (c : Char) : Option Nat :=
  if 65 ≤ c.toNat ∧ c.toNat ≤ 90 then some (c.toNat - 65)
  else if 97 ≤ c.toNat ∧ c.toNat ≤ 122 then some (c.toNat - 97 + 26)
  else if 48 ≤ c.toNat ∧ c.toNat ≤ 57 then some (c.toNat - 48 + 52)
  else if c.toNat = 43 ∨ c.toNat = 45 then some 62
  else if c.toNat = 47 ∨ c.toNat = 95 then some 63
  else none

/-- Accumulate 6-bit groups into bytes; trailing bits that do not fill a byte
are dropped. -/
def base64DecodeAux : List Nat → Nat → Nat → List Nat
  | [], _, _ => []
  | v :: vs, acc, bits =>
    let acc2 := acc * 64 + v
    let bits2 := bits + 6
    if 8 ≤ bits2 then
      acc2 / 2 ^ (bits2 - 8) :: base64DecodeAux vs (acc2 % 2 ^ (bits2 - 8)) (bits2 - 8)
    else
      base64DecodeAux vs acc2 bits2

/-- `new Uint8Array(Buffer.from(id, "base64"))` in verify.ts: decode the
base64 credential id into bytes. -/
def base64Decode (s : String) : List Nat :=
  base64DecodeAux (s.data.filterMap base64CharVal) 0 0

/-- The raw client response after the shape check of verify.ts: either one of
the rejected shapes (not an object, no `id`, non-string `id`), or an object
with a string `id` and the nested `response.transports` list that
`verifyRegistration` reads. -/
inductive ClientResponse where
  | nonObject
  | objWithoutId
  | objNonStringId
  | objWithId (id : String) (transports : Option (List String))
deriving DecidableEq

/-- Whether the response passes the shape check of both verifiers. -/
def hasStringId : ClientResponse → Bool
  | .objWithId _ _ => true
  | _ => false

/-- The `email` argument of `verifyRegistration`: a string or anything else
(the code only checks `typeof email !== "string"`). -/
inductive EmailParam where
  | strVal (s : String)
  | nonString
deriving DecidableEq

/-- `authenticationInfo` of a library verification result. -/
structure AuthenticationInfo where
  newCounter : Nat
deriving DecidableEq

/-- `VerifiedAuthenticationResponse` from the ceremony library. -/
structure VerifiedAuthenticationResponse where
  verified : Bool
  authenticationInfo : AuthenticationInfo
deriving DecidableEq

/-- `registrationInfo` of a library registration verification result. -/
structure RegistrationInfo where
  counter : Nat
  credentialID : List Nat
  credentialBackedUp : Bool
  credentialDeviceType : String
  credentialPublicKey : List Nat
deriving DecidableEq

/-- `VerifiedRegistrationResponse` from the ceremony library. -/
structure VerifiedRegistrationResponse where
  verified : Bool
  registrationInfo : Option RegistrationInfo
deriving DecidableEq

/-- The argument record `verifyAuthentication` passes to the ceremony library
function `verifyAuthenticationResponse`. -/
structure VerifyAuthenticationArgs where
  responseId : String
  authenticator : AdapterAuthenticator
  expectedChallenge : String
  expectedOrigin : String
  expectedRPID : String
  requireUserVerification : Bool
deriving DecidableEq

/-- The argument record `verifyRegistration` passes to the ceremony library
function `verifyRegistrationResponse`. -/
structure VerifyRegistrationArgs where
  responseId : String
  expectedChallenge : String
  expectedOrigin : String
  expectedRPID : String
  requireUserVerification : Bool
deriving DecidableEq

/-- One logger call, in order of emission. -/
inductive LogEvent where
  | debugLog (msg : String)
  | errorLog (msg : String)
deriving DecidableEq

/-- Modelled from the spec: `WebAuthnVerificationError` (errors module, not
under src/) wraps an underlying message; its `.message` is surfaced as the
soft error string. -/
def webAuthnVerificationErrorMessage (e : String) : String :=
  "WebAuthnVerificationError: " ++ e

/-- Modelled from the spec: `AdapterError` (errors module, not under src/)
wraps an adapter exception for logging. -/
def adapterErrorMessage (e : String) : String :=
  "AdapterError: " ++ e

/-- Result of a verifier: a thrown (fatal) error, a soft user-facing string,
or the `UserData` success value (`authenticator` is only present for
registration). -/
inductive VerifyResult where
  | fatal (msg : String)
  | soft (msg : String)
  | success (user : AdapterUser) (account : Account) (authenticator : Option AdapterAuthenticator)
deriving DecidableEq

/-- A verifier run: its result together with the trace of adapter counter
writes it attempted and the log it emitted. -/
structure VerifyRun where
  result : VerifyResult
  writes : List (AdapterAuthenticator × Nat)
  log : List LogEvent
deriving DecidableEq

/-- `verifyAuthentication` (src/packages/core/src/lib/passkey/verify.ts,
lines 41-152). The ceremony library call is the oracle
`verifyAuthenticationResponse`; `decodedChallengeCookie` is the result of
`decodeSignedCookie` (cookie collaborator). Adapter-capability assertions are
modelled from the spec as in `getUserAndAuthenticators`. -/
def verifyAuthentication
    (verifyAuthenticationResponse :
      VerifyAuthenticationArgs → Except String VerifiedAuthenticationResponse)
    (opts : Options)
    (decodedChallengeCookie : Option PasskeyOptionsCookieData)
    (response : ClientResponse) : VerifyRun :=
  match opts.adapter with
  | none =>
    { result := .fatal "MissingAdapter: WebaAuthn verifyAuthentication requires an adapter."
      writes := [], log := [] }
  | some adapter =>
    match adapter.getAuthenticator, adapter.getUserByAccount,
        adapter.updateAuthenticatorCounter with
    | some getAuthenticator, some getUserByAccount, some updateAuthenticatorCounter =>
      match response with
      | .objWithId responseId _ =>
        match decodedChallengeCookie with
        | none => { result := .soft "Missing challenge cookie.", writes := [], log := [] }
        | some cookie =>
          let expectedChallenge := cookie.challenge
          let uintID := base64Decode responseId
          match getAuthenticator uintID with
          | none =>
            { result := .soft "Authenticator not found."
              writes := []
              log := [.debugLog "Authenticator not found."] }
          | some authenticator =>
            match verifyAuthenticationResponse
                { responseId := responseId
                  authenticator := authenticator
                  expectedChallenge := expectedChallenge
                  expectedOrigin := opts.provider.relayingParty.origin
                  expectedRPID := opts.provider.relayingParty.id
                  requireUserVerification := true } with
            | .error e =>
              { result := .soft (webAuthnVerificationErrorMessage e)
                writes := []
                log := [.errorLog (webAuthnVerificationErrorMessage e)] }
            | .ok verification =>
              if !verification.verified then
                { result := .soft "Failed to verify response.", writes := [], log := [] }
              else
                let newCounter := verification.authenticationInfo.newCounter
                let updateLog : List LogEvent :=
                  match updateAuthenticatorCounter authenticator newCounter with
                  | .ok _ => []
                  | .error e => [.errorLog (adapterErrorMessage e)]
                match getUserByAccount opts.provider.id authenticator.providerAccountId with
                | none =>
                  { result := .fatal
                      (webAuthnVerificationErrorMessage
                        "User not found. See debug logs for more details.")
                    writes := [(authenticator, newCounter)]
                    log := updateLog ++
                      [.debugLog ("User not found for account "
                        ++ authenticator.providerAccountId ++ ". This should not happen.")] }
                | some user =>
                  { result := .success user
                      { userId := user.id
                        type := opts.provider.type
                        provider := opts.provider.id
                        providerAccountId := authenticator.providerAccountId }
                      none
                    writes := [(authenticator, newCounter)]
                    log := updateLog }
      | _ => { result := .soft "Invalid response.", writes := [], log := [] }
    | _, _, _ =>
      { result := .fatal "MissingAdapterMethods: WebaAuthn verifyAuthentication requires an adapter that implements getAuthenticator, getUserByAccount, updateAuthenticatorCounter."
        writes := [], log := [] }

/-- `verifyRegistration` (src/packages/core/src/lib/passkey/verify.ts,
lines 163-249). It makes no adapter call at all; the writes trace is reported
for the frame property. -/
def verifyRegistration
    (verifyRegistrationResponse :
      VerifyRegistrationArgs → Except String VerifiedRegistrationResponse)
    (opts : Options)
    (decodedChallengeCookie : Option PasskeyOptionsCookieData)
    (response : ClientResponse)
    (email : EmailParam) : VerifyRun :=
  match email with
  | .nonString => { result := .soft "Email is required for registration.", writes := [], log := [] }
  | .strVal email =>
    match response with
    | .objWithId responseId transports =>
      match decodedChallengeCookie with
      | none => { result := .soft "Missing challenge cookie.", writes := [], log := [] }
      | some cookie =>
        match cookie.providerAccountId with
        | none =>
          { result := .soft "Missing providerAccountId from challenge cookie."
            writes := [], log := [] }
        | some providerAccountId =>
          if providerAccountId == "" then
            { result := .soft "Missing providerAccountId from challenge cookie."
              writes := [], log := [] }
          else
            match verifyRegistrationResponse
                { responseId := responseId
                  expectedChallenge := cookie.challenge
                  expectedOrigin := opts.provider.relayingParty.origin
                  expectedRPID := opts.provider.relayingParty.id
                  requireUserVerification := true } with
            | .error e =>
              { result := .soft (webAuthnVerificationErrorMessage e)
                writes := []
                log := [.errorLog (webAuthnVerificationErrorMessage e)] }
            | .ok verification =>
              match verification.verified, verification.registrationInfo with
              | true, some registrationInfo =>
                let user : AdapterUser :=
                  { id := email, name := none, email := email, emailVerified := none }
                let account : Account :=
                  { userId := user.id
                    type := opts.provider.type
                    provider := opts.provider.id
                    providerAccountId := providerAccountId }
                let authenticator : AdapterAuthenticator :=
                  { providerAccountId := providerAccountId
                    counter := registrationInfo.counter
                    credentialID := registrationInfo.credentialID
                    credentialBackedUp := registrationInfo.credentialBackedUp
                    credentialDeviceType := registrationInfo.credentialDeviceType
                    credentialPublicKey := registrationInfo.credentialPublicKey
                    transports := transports }
                { result := .success user account (some authenticator), writes := [], log := [] }
              | _, _ =>
                { result := .soft "Failed to verify response.", writes := [], log := [] }
    | _ => { result := .soft "Invalid response.", writes := [], log := [] }

/-- Modelled from the spec: the concrete adapter implementation is not under
src/; the spec requires `updateAuthenticatorCounter` to reject a counter
update that does not strictly increase (cloned-credential defense). -/
def specUpdateAuthenticatorCounter (a : AdapterAuthenticator) (newCounter : Nat) :
    Except String Unit :=
  if a.counter < newCounter then .ok () else .error "Authenticator counter did not increase."

/-- Modelled from the spec: the stored counter after an update attempt under
the spec adapter — the new value when strictly increasing, otherwise
unchanged (the update is rejected/ignored). -/
def specCounterAfterUpdate (stored newCounter : Nat) : Nat :=
  if stored < newCounter then newCounter else stored

/-! Concrete collaborator instances used in counterexamples and witnesses. -/

/-- Demo relaying party. -/
def rpDemo : RelayingPartyConfig :=
  { name := "Demo", id := "example.com", origin := "https://example.com" }

/-- Demo provider: the factory defaults, so id = "passkey", type = "passkey". -/
def providerDemo : PasskeyConfig :=
  Passkey { id := none, name := none, relayingParty := rpDemo }

/-- Demo ceremony library: fixed challenges; registration echoes the
requested user id. -/
def libDemo : CeremonyLib :=
  { generateRegistrationOptions := fun req =>
      { challenge := "regChallenge", userId := req.userID }
    generateAuthenticationOptions := fun _ => { challenge := "authChallenge" } }

/-- Demo stored authenticator: counter 5, credential id bytes [1, 2, 3]
(base64 "AQID"), owned by account "acct1". -/
def authDemo : AdapterAuthenticator :=
  { providerAccountId := "acct1"
    counter := 5
    credentialID := [1, 2, 3]
    credentialBackedUp := true
    credentialDeviceType := "multiDevice"
    credentialPublicKey := [9, 9]
    transports := some ["internal"] }

/-- Demo user owning account "acct1". -/
def userDemo : AdapterUser :=
  { id := "user1", name := some "Demo User", email := "exists@x.com", emailVerified := none }

/-- Adapter with every method implemented and an empty database; the counter
update follows the spec-modelled strictly-increasing contract. -/
def adapterEmptyDb : Adapter :=
  { getUserByEmail := some fun _ => none
    listLinkedAccounts := some fun _ => some []
    listAuthenticatorsByAccountId := some fun _ => some []
    getAuthenticator := some fun _ => none
    getUserByAccount := some fun _ _ => none
    updateAuthenticatorCounter := some specUpdateAuthenticatorCounter }

/-- Demo credential lookup: finds `authDemo` by its credential id bytes. -/
def getAuthenticatorDemo : List Nat → Option AdapterAuthenticator :=
  fun cid => if cid == [1, 2, 3] then some authDemo else none

/-- Demo account-to-user lookup: resolves account "acct1" of provider
"passkey" to `userDemo`. -/
def getUserByAccountDemo : String → String → Option AdapterUser :=
  fun p pa => if p == "passkey" && pa == "acct1" then some userDemo else none

/-- Adapter storing `authDemo` and `userDemo` linked through account "acct1". -/
def adapterWithAuth : Adapter :=
  { getUserByEmail := some fun e => if e == "exists@x.com" then some userDemo else none
    listLinkedAccounts := some fun uid =>
      if uid == "user1" then
        some [{ userId := "user1", type := "passkey", provider := "passkey"
                providerAccountId := "acct1" }]
      else some []
    listAuthenticatorsByAccountId := some fun pa =>
      if pa == "acct1" then some [authDemo] else some []
    getAuthenticator := some getAuthenticatorDemo
    getUserByAccount := some getUserByAccountDemo
    updateAuthenticatorCounter := some specUpdateAuthenticatorCounter }

/-- Options with an empty-database adapter. -/
def optsDemo : Options := { adapter := some adapterEmptyDb, provider := providerDemo }

/-- Options with the populated adapter. -/
def optsWithAuth : Options := { adapter := some adapterWithAuth, provider := providerDemo }

/-- Options with no adapter configured. -/
def optsNoAdapter : Options := { adapter := none, provider := providerDemo }

/-- C1: the options handler does not implement the decision table of
section 4.1: for an anonymous caller who explicitly requests "authenticate"
with an email that has no registered user, the table requires an
invalid-combination error, but both implementations of `passkeyOptions`
return a 200 response with authentication options (neither consults the
existence check on an explicit action). -/
theorem passkeyOptions_explicit_authenticate_unknown_email :
    PasskeyRoutes.passkeyOptions libDemo optsDemo "fresh" none (some "authenticate")
        (some "ghost@x.com")
      = .ok (.authResponse { challenge := "authChallenge" }
          { challenge := "authChallenge", providerAccountId := none })
    ∧ PasskeyTypes.passkeyOptions libDemo optsDemo "fresh" none (some "authenticate")
        (some "ghost@x.com")
      = .ok (.authResponse { challenge := "authChallenge" }
          { challenge := "authChallenge", providerAccountId := none }) :=
  ⟨rfl, rfl⟩

/-- C9: the switch-based resolver (types.ts) and the if/else resolver
(routes/passkey-options.ts) are not extensionally equal: with no session, no
explicit action and no email, the routes version returns the 400 error
"email is required to register" while the types version issues
authentication options. -/
theorem passkeyOptions_implementations_diverge :
    ∃ (lib : CeremonyLib) (opts : Options) (freshId : String)
      (sessionUserEmail action queryEmail : Option String),
      PasskeyRoutes.passkeyOptions lib opts freshId sessionUserEmail action queryEmail ≠
        PasskeyTypes.passkeyOptions lib opts freshId sessionUserEmail action queryEmail :=
  ⟨libDemo, optsDemo, "fresh", none, none, none, by decide⟩

/-- Every successful `doRegister` wraps the library output in a 200 response
whose cookie payload copies the challenge and the generated user id. -/
theorem doRegister_ok_shape {lib : CeremonyLib} {opts : Options} {freshId email : String}
    {resp : OptionsResponse} (h : doRegister lib opts freshId email = .ok resp) :
    ∃ req out, registrationOptions lib opts freshId email = .ok (req, out) ∧
      resp = .regResponse out
        { providerAccountId := some out.userId, challenge := out.challenge } := by
  unfold doRegister at h
  cases hro : registrationOptions lib opts freshId email with
  | error e => rw [hro] at h; simp [Except.bind, Bind.bind] at h
  | ok p =>
    rw [hro] at h
    cases p with
    | mk req out =>
      simp [Except.bind, Bind.bind] at h
      exact ⟨req, out, rfl, h.symm⟩

/-- Every successful `doAuthenticate` wraps the library output in a 200
response whose cookie payload copies the challenge and has no
providerAccountId. -/
theorem doAuthenticate_ok_shape {lib : CeremonyLib} {opts : Options} {email : Option String}
    {resp : OptionsResponse} (h : doAuthenticate lib opts email = .ok resp) :
    ∃ req out, authenticationOptions lib opts email = .ok (req, out) ∧
      resp = .authResponse out { challenge := out.challenge, providerAccountId := none } := by
  unfold doAuthenticate at h
  cases hro : authenticationOptions lib opts email with
  | error e => rw [hro] at h; simp [Except.bind, Bind.bind] at h
  | ok p =>
    rw [hro] at h
    cases p with
    | mk req out =>
      simp [Except.bind, Bind.bind] at h
      exact ⟨req, out, rfl, h.symm⟩

/-- C3: for every successful options issuance, the challenge placed in the
signed cookie payload equals the challenge embedded in the ceremony options
returned to the client; a registration issuance additionally stores
providerAccountId equal to the generated user id from the registration
options, while an authentication issuance stores no providerAccountId. -/
theorem cookie_challenge_matches_options (lib : CeremonyLib) (opts : Options)
    (freshId email : String) (email2 : Option String) :
    (∀ r c, doRegister lib opts freshId email = .ok (.regResponse r c) →
        c.challenge = r.challenge ∧ c.providerAccountId = some r.userId)
    ∧ (∀ r c, doRegister lib opts freshId email ≠ .ok (.authResponse r c))
    ∧ (∀ r c, doAuthenticate lib opts email2 = .ok (.authResponse r c) →
        c.challenge = r.challenge ∧ c.providerAccountId = none)
    ∧ (∀ r c, doAuthenticate lib opts email2 ≠ .ok (.regResponse r c)) := by
  refine ⟨?_, ?_, ?_, ?_⟩
  · intro r c h
    obtain ⟨req, out, _, heq⟩ := doRegister_ok_shape h
    cases heq
    exact ⟨rfl, rfl⟩
  · intro r c h
    obtain ⟨req, out, _, heq⟩ := doRegister_ok_shape h
    cases heq
  · intro r c h
    obtain ⟨req, out, _, heq⟩ := doAuthenticate_ok_shape h
    cases heq
    exact ⟨rfl, rfl⟩
  · intro r c h
    obtain ⟨req, out, _, heq⟩ := doAuthenticate_ok_shape h
    cases heq

/-- C4: the failure taxonomy of `verifyAuthentication`: a missing adapter or
an adapter lacking getAuthenticator/getUserByAccount/updateAuthenticatorCounter
throws a fatal configuration error before any request processing (no write,
no log); an invalid response shape returns the soft string "Invalid
response."; a missing challenge cookie returns "Missing challenge cookie.";
an unknown credential id returns "Authenticator not found."; a thrown
ceremony-library error is wrapped and returned as a soft string; a
verified=false result returns "Failed to verify response.". -/
theorem verifyAuthentication_error_taxonomy
    (vr : VerifyAuthenticationArgs → Except String VerifiedAuthenticationResponse)
    (opts : Options) (cookie : Option PasskeyOptionsCookieData) (response : ClientResponse) :
    (opts.adapter = none →
      verifyAuthentication vr opts cookie response
        = { result := .fatal "MissingAdapter: WebaAuthn verifyAuthentication requires an adapter."
            writes := [], log := [] })
    ∧ (∀ a, opts.adapter = some a →
        (a.getAuthenticator = none ∨ a.getUserByAccount = none ∨
          a.updateAuthenticatorCounter = none) →
        verifyAuthentication vr opts cookie response
          = { result := .fatal "MissingAdapterMethods: WebaAuthn verifyAuthentication requires an adapter that implements getAuthenticator, getUserByAccount, updateAuthenticatorCounter."
              writes := [], log := [] })
    ∧ (∀ a g u w, opts.adapter = some a → a.getAuthenticator = some g →
        a.getUserByAccount = some u → a.updateAuthenticatorCounter = some w →
        hasStringId response = false →
        (verifyAuthentication vr opts cookie response).result = .soft "Invalid response.")
    ∧ (∀ a g u w id tr, opts.adapter = some a → a.getAuthenticator = some g →
        a.getUserByAccount = some u → a.updateAuthenticatorCounter = some w →
        response = .objWithId id tr → cookie = none →
        (verifyAuthentication vr opts cookie response).result = .soft "Missing challenge cookie.")
    ∧ (∀ a g u w id tr ck, opts.adapter = some a → a.getAuthenticator = some g →
        a.getUserByAccount = some u → a.updateAuthenticatorCounter = some w →
        response = .objWithId id tr → cookie = some ck →
        g (base64Decode id) = none →
        (verifyAuthentication vr opts cookie response).result = .soft "Authenticator not found.")
    ∧ (∀ a g u w id tr ck auth e, opts.adapter = some a → a.getAuthenticator = some g →
        a.getUserByAccount = some u → a.updateAuthenticatorCounter = some w →
        response = .objWithId id tr → cookie = some ck →
        g (base64Decode id) = some auth →
        vr { responseId := id, authenticator := auth, expectedChallenge := ck.challenge
             expectedOrigin := opts.provider.relayingParty.origin
             expectedRPID := opts.provider.relayingParty.id
             requireUserVerification := true } = .error e →
        (verifyAuthentication vr opts cookie response).result
          = .soft (webAuthnVerificationErrorMessage e))
    ∧ (∀ a g u w id tr ck auth v, opts.adapter = some a → a.getAuthenticator = some g →
        a.getUserByAccount = some u → a.updateAuthenticatorCounter = some w →
        response = .objWithId id tr → cookie = some ck →
        g (base64Decode id) = some auth →
        vr { responseId := id, authenticator := auth, expectedChallenge := ck.challenge
             expectedOrigin := opts.provider.relayingParty.origin
             expectedRPID := opts.provider.relayingParty.id
             requireUserVerification := true } = .ok v →
        v.verified = false →
        (verifyAuthentication vr opts cookie response).result
          = .soft "Failed to verify response.") := by
  refine ⟨?_, ?_, ?_, ?_, ?_, ?_, ?_⟩
  · intro hA
    simp [verifyAuthentication, hA]
  · intro a hA hmiss
    rcases hmiss with hm | hm | hm <;>
      · rcases hg : a.getAuthenticator with _ | g <;>
          rcases hu : a.getUserByAccount with _ | u <;>
          rcases hw : a.updateAuthenticatorCounter with _ | w <;>
          simp_all [verifyAuthentication]
  · intro a g u w hA hg hu hw hs
    cases response with
    | objWithId id tr => simp [hasStringId] at hs
    | nonObject => simp [verifyAuthentication, hA, hg, hu, hw]
    | objWithoutId => simp [verifyAuthentication, hA, hg, hu, hw]
    | objNonStringId => simp [verifyAuthentication, hA, hg, hu, hw]
  · intro a g u w id tr hA hg hu hw hresp hck
    subst hresp hck
    simp [verifyAuthentication, hA, hg, hu, hw]
  · intro a g u w id tr ck hA hg hu hw hresp hck hga
    subst hresp hck
    simp [verifyAuthentication, hA, hg, hu, hw, hga]
  · intro a g u w id tr ck auth e hA hg hu hw hresp hck hga hvr
    subst hresp hck
    simp [verifyAuthentication, hA, hg, hu, hw, hga, hvr]
  · intro a g u w id tr ck auth v hA hg hu hw hresp hck hga hvr hv
    subst hresp hck
    simp [verifyAuthentication, hA, hg, hu, hw, hga, hvr, hv]

/-- Ceremony library oracle that always throws (authentication). -/
def libAuthNever : VerifyAuthenticationArgs → Except String VerifiedAuthenticationResponse :=
  fun _ => .error "never"

/-- Ceremony library oracle that always throws (registration). -/
def libRegNever : VerifyRegistrationArgs → Except String VerifiedRegistrationResponse :=
  fun _ => .error "never"

/-- C4 witness: the missing-adapter conjunct applied at a concrete input. -/
theorem verifyAuthentication_error_taxonomy_witness :
    verifyAuthentication libAuthNever optsNoAdapter none .nonObject
      = { result := .fatal "MissingAdapter: WebaAuthn verifyAuthentication requires an adapter."
          writes := [], log := [] } :=
  (verifyAuthentication_error_taxonomy libAuthNever optsNoAdapter
    none .nonObject).1 rfl

/-- Demo decoded challenge cookie for authentication (no providerAccountId). -/
def ckDemo : PasskeyOptionsCookieData := { challenge := "ch", providerAccountId := none }

/-- Ceremony library oracle reporting a verified authentication with the
given new counter value. -/
def libAuthVerified (n : Nat) :
    VerifyAuthenticationArgs → Except String VerifiedAuthenticationResponse :=
  fun _ => .ok { verified := true, authenticationInfo := { newCounter := n } }

/-- C2: after a successful authentication verification the single counter
write attempts the library-returned newCounter against the spec-modelled
adapter, which applies it only if it strictly increases; a rejected update is
logged (observable) and the result is still the success value with the
resolved user and account. -/
theorem verifyAuthentication_counter_update
    (vr : VerifyAuthenticationArgs → Except String VerifiedAuthenticationResponse)
    (opts : Options) (ck : PasskeyOptionsCookieData)
    (a : Adapter) (g : List Nat → Option AdapterAuthenticator)
    (u : String → String → Option AdapterUser)
    (id : String) (tr : Option (List String))
    (auth : AdapterAuthenticator) (v : VerifiedAuthenticationResponse) (user : AdapterUser)
    (hA : opts.adapter = some a) (hg : a.getAuthenticator = some g)
    (hu : a.getUserByAccount = some u)
    (hw : a.updateAuthenticatorCounter = some specUpdateAuthenticatorCounter)
    (hga : g (base64Decode id) = some auth)
    (hvr : vr { responseId := id, authenticator := auth, expectedChallenge := ck.challenge
                expectedOrigin := opts.provider.relayingParty.origin
                expectedRPID := opts.provider.relayingParty.id
                requireUserVerification := true } = .ok v)
    (hv : v.verified = true)
    (huser : u opts.provider.id auth.providerAccountId = some user) :
    (verifyAuthentication vr opts (some ck) (.objWithId id tr)).result
      = .success user
          { userId := user.id, type := opts.provider.type, provider := opts.provider.id
            providerAccountId := auth.providerAccountId } none
    ∧ (verifyAuthentication vr opts (some ck) (.objWithId id tr)).writes
        = [(auth, v.authenticationInfo.newCounter)]
    ∧ (auth.counter < v.authenticationInfo.newCounter →
        specCounterAfterUpdate auth.counter v.authenticationInfo.newCounter
          = v.authenticationInfo.newCounter
        ∧ (verifyAuthentication vr opts (some ck) (.objWithId id tr)).log = [])
    ∧ (¬ auth.counter < v.authenticationInfo.newCounter →
        specCounterAfterUpdate auth.counter v.authenticationInfo.newCounter = auth.counter
        ∧ (verifyAuthentication vr opts (some ck) (.objWithId id tr)).log
            = [.errorLog (adapterErrorMessage "Authenticator counter did not increase.")]) := by
  by_cases hlt : auth.counter < v.authenticationInfo.newCounter <;>
    refine ⟨?_, ?_, ?_, ?_⟩ <;>
      simp [verifyAuthentication, hA, hg, hu, hw, hga, hvr, hv, huser,
        specUpdateAuthenticatorCounter, specCounterAfterUpdate, hlt]

/-- C2 witness: stored counter 5; a reported newCounter of 4 is rejected and
flagged while the run still succeeds, and a reported newCounter of 6
persists with no anomaly log. -/
theorem verifyAuthentication_counter_update_witness :
    (verifyAuthentication (libAuthVerified 4) optsWithAuth (some ckDemo)
        (.objWithId "AQID" (some ["internal"]))).result
      = .success userDemo
          { userId := userDemo.id, type := optsWithAuth.provider.type
            provider := optsWithAuth.provider.id
            providerAccountId := authDemo.providerAccountId } none
    ∧ (specCounterAfterUpdate authDemo.counter 4 = authDemo.counter
        ∧ (verifyAuthentication (libAuthVerified 4) optsWithAuth (some ckDemo)
            (.objWithId "AQID" (some ["internal"]))).log
          = [.errorLog (adapterErrorMessage "Authenticator counter did not increase.")])
    ∧ (specCounterAfterUpdate authDemo.counter 6 = 6
        ∧ (verifyAuthentication (libAuthVerified 6) optsWithAuth (some ckDemo)
            (.objWithId "AQID" (some ["internal"]))).log = []) :=
  ⟨(verifyAuthentication_counter_update (libAuthVerified 4) optsWithAuth ckDemo
      adapterWithAuth getAuthenticatorDemo getUserByAccountDemo "AQID" (some ["internal"])
      authDemo { verified := true, authenticationInfo := { newCounter := 4 } } userDemo
      rfl rfl rfl rfl (by decide) rfl rfl (by decide)).1,
   (verifyAuthentication_counter_update (libAuthVerified 4) optsWithAuth ckDemo
      adapterWithAuth getAuthenticatorDemo getUserByAccountDemo "AQID" (some ["internal"])
      authDemo { verified := true, authenticationInfo := { newCounter := 4 } } userDemo
      rfl rfl rfl rfl (by decide) rfl rfl (by decide)).2.2.2 (by decide),
   (verifyAuthentication_counter_update (libAuthVerified 6) optsWithAuth ckDemo
      adapterWithAuth getAuthenticatorDemo getUserByAccountDemo "AQID" (some ["internal"])
      authDemo { verified := true, authenticationInfo := { newCounter := 6 } } userDemo
      rfl rfl rfl rfl (by decide) rfl rfl (by decide)).2.2.1 (by decide)⟩

/-- C3 witness: the registration conjunct applied to a concrete issuance
(fresh user id "fresh", new email). -/
theorem cookie_challenge_matches_options_witness :
    ("regChallenge" : String) = "regChallenge"
    ∧ (some "fresh" : Option String) = some "fresh" :=
  (cookie_challenge_matches_options libDemo optsDemo "fresh" "new@x.com" none).1
    { challenge := "regChallenge", userId := "fresh" }
    { providerAccountId := some "fresh", challenge := "regChallenge" } (by decide)

/-- Account-to-user lookup that never resolves (orphaned authenticator). -/
def getUserByAccountNone : String → String → Option AdapterUser := fun _ _ => none

/-- Adapter storing `authDemo` whose owning user cannot be resolved. -/
def adapterOrphan : Adapter :=
  { getUserByEmail := some fun _ => none
    listLinkedAccounts := some fun _ => some []
    listAuthenticatorsByAccountId := some fun _ => some []
    getAuthenticator := some getAuthenticatorDemo
    getUserByAccount := some getUserByAccountNone
    updateAuthenticatorCounter := some specUpdateAuthenticatorCounter }

/-- Options with the orphaned-authenticator adapter. -/
def optsOrphan : Options := { adapter := some adapterOrphan, provider := providerDemo }

/-- C7: when the ceremony verification succeeded but no user resolves via
(provider, providerAccountId) for the matched authenticator,
`verifyAuthentication` throws a fatal error and does not return a soft
string, so the request never proceeds as authenticated with an orphaned
identity. -/
theorem verifyAuthentication_orphan_fatal
    (vr : VerifyAuthenticationArgs → Except String VerifiedAuthenticationResponse)
    (opts : Options) (ck : PasskeyOptionsCookieData)
    (a : Adapter) (g : List Nat → Option AdapterAuthenticator)
    (u : String → String → Option AdapterUser)
    (w : AdapterAuthenticator → Nat → Except String Unit)
    (id : String) (tr : Option (List String))
    (auth : AdapterAuthenticator) (v : VerifiedAuthenticationResponse)
    (hA : opts.adapter = some a) (hg : a.getAuthenticator = some g)
    (hu : a.getUserByAccount = some u) (hw : a.updateAuthenticatorCounter = some w)
    (hga : g (base64Decode id) = some auth)
    (hvr : vr { responseId := id, authenticator := auth, expectedChallenge := ck.challenge
                expectedOrigin := opts.provider.relayingParty.origin
                expectedRPID := opts.provider.relayingParty.id
                requireUserVerification := true } = .ok v)
    (hv : v.verified = true)
    (huser : u opts.provider.id auth.providerAccountId = none) :
    (verifyAuthentication vr opts (some ck) (.objWithId id tr)).result
      = .fatal (webAuthnVerificationErrorMessage
          "User not found. See debug logs for more details.")
    ∧ ∀ m, (verifyAuthentication vr opts (some ck) (.objWithId id tr)).result ≠ .soft m := by
  have h : (verifyAuthentication vr opts (some ck) (.objWithId id tr)).result
      = .fatal (webAuthnVerificationErrorMessage
          "User not found. See debug logs for more details.") := by
    simp [verifyAuthentication, hA, hg, hu, hw, hga, hvr, hv, huser]
  exact ⟨h, fun m hm => by rw [h] at hm; exact VerifyResult.noConfusion hm⟩

/-- C7 witness: the orphaned-identity case evaluated on the demo adapter. -/
theorem verifyAuthentication_orphan_fatal_witness :
    (verifyAuthentication (libAuthVerified 6) optsOrphan (some ckDemo)
        (.objWithId "AQID" none)).result
      = .fatal (webAuthnVerificationErrorMessage
          "User not found. See debug logs for more details.")
    ∧ (verifyAuthentication (libAuthVerified 6) optsOrphan (some ckDemo)
        (.objWithId "AQID" none)).result ≠ .soft "Authenticator not found." :=
  ⟨(verifyAuthentication_orphan_fatal (libAuthVerified 6) optsOrphan ckDemo
      adapterOrphan getAuthenticatorDemo getUserByAccountNone specUpdateAuthenticatorCounter
      "AQID" none authDemo { verified := true, authenticationInfo := { newCounter := 6 } }
      rfl rfl rfl rfl (by decide) rfl rfl rfl).1,
   (verifyAuthentication_orphan_fatal (libAuthVerified 6) optsOrphan ckDemo
      adapterOrphan getAuthenticatorDemo getUserByAccountNone specUpdateAuthenticatorCounter
      "AQID" none authDemo { verified := true, authenticationInfo := { newCounter := 6 } }
      rfl rfl rfl rfl (by decide) rfl rfl rfl).2 "Authenticator not found."⟩

/-- C5: with a string email, a response with a string id, a decoded cookie
carrying a providerAccountId, and a library result that is verified with
registration info, `verifyRegistration` returns exactly the synthesized User
(id and email both the given email, emailVerified null), the Account (userId
the email, provider "passkey", providerAccountId from the cookie), and the
Authenticator built from the verification result plus the response
transports; a non-string email, or a cookie whose providerAccountId is
absent, yields the corresponding soft error string instead. -/
theorem verifyRegistration_success_shape
    (vrr : VerifyRegistrationArgs → Except String VerifiedRegistrationResponse)
    (opts : Options) (cookie : Option PasskeyOptionsCookieData)
    (response : ClientResponse) (email : EmailParam) :
    (∀ e id tr ck pa info v,
      email = .strVal e → response = .objWithId id tr →
      cookie = some ck → ck.providerAccountId = some pa → pa ≠ "" →
      opts.provider.id = "passkey" →
      vrr { responseId := id, expectedChallenge := ck.challenge
            expectedOrigin := opts.provider.relayingParty.origin
            expectedRPID := opts.provider.relayingParty.id
            requireUserVerification := true } = .ok v →
      v.verified = true → v.registrationInfo = some info →
      (verifyRegistration vrr opts cookie response email).result
        = .success { id := e, name := none, email := e, emailVerified := none }
            { userId := e, type := opts.provider.type, provider := "passkey"
              providerAccountId := pa }
            (some { providerAccountId := pa
                    counter := info.counter
                    credentialID := info.credentialID
                    credentialBackedUp := info.credentialBackedUp
                    credentialDeviceType := info.credentialDeviceType
                    credentialPublicKey := info.credentialPublicKey
                    transports := tr }))
    ∧ (email = .nonString →
        (verifyRegistration vrr opts cookie response email).result
          = .soft "Email is required for registration.")
    ∧ (∀ e id tr ck, email = .strVal e → response = .objWithId id tr → cookie = some ck →
        (ck.providerAccountId = none ∨ ck.providerAccountId = some "") →
        (verifyRegistration vrr opts cookie response email).result
          = .soft "Missing providerAccountId from challenge cookie.") := by
  refine ⟨?_, ?_, ?_⟩
  · intro e id tr ck pa info v hem hresp hck hpa hne hpid hvrr hv hinfo
    subst hem hresp hck
    rw [← hpid]
    simp [verifyRegistration, hpa, hne, hvrr, hv, hinfo]
  · intro hem
    subst hem
    simp [verifyRegistration]
  · intro e id tr ck hem hresp hck hpa
    subst hem hresp hck
    rcases hpa with hpa | hpa <;> simp [verifyRegistration, hpa]

/-- Concrete library registration info for the C5 witness. -/
def regInfoDemo : RegistrationInfo :=
  { counter := 0
    credentialID := [1, 2, 3]
    credentialBackedUp := true
    credentialDeviceType := "multiDevice"
    credentialPublicKey := [9, 9] }

/-- Ceremony library oracle reporting a verified registration with
`regInfoDemo`. -/
def libRegVerified : VerifyRegistrationArgs → Except String VerifiedRegistrationResponse :=
  fun _ => .ok { verified := true, registrationInfo := some regInfoDemo }

/-- Registration challenge cookie carrying a providerAccountId. -/
def ckRegDemo : PasskeyOptionsCookieData :=
  { challenge := "regChallenge", providerAccountId := some "genUser1" }

/-- C5 witness: the success conjunct applied to a concrete registration. -/
theorem verifyRegistration_success_shape_witness :
    (verifyRegistration libRegVerified optsDemo (some ckRegDemo)
        (.objWithId "AQID" (some ["usb"])) (.strVal "new@x.com")).result
      = .success { id := "new@x.com", name := none, email := "new@x.com", emailVerified := none }
          { userId := "new@x.com", type := optsDemo.provider.type, provider := "passkey"
            providerAccountId := "genUser1" }
          (some { providerAccountId := "genUser1"
                  counter := regInfoDemo.counter
                  credentialID := regInfoDemo.credentialID
                  credentialBackedUp := regInfoDemo.credentialBackedUp
                  credentialDeviceType := regInfoDemo.credentialDeviceType
                  credentialPublicKey := regInfoDemo.credentialPublicKey
                  transports := some ["usb"] }) :=
  (verifyRegistration_success_shape libRegVerified optsDemo (some ckRegDemo)
      (.objWithId "AQID" (some ["usb"])) (.strVal "new@x.com")).1
    "new@x.com" "AQID" (some ["usb"]) ckRegDemo "genUser1" regInfoDemo
    { verified := true, registrationInfo := some regInfoDemo }
    rfl rfl rfl rfl (by decide) rfl rfl rfl rfl

/-- C6: neither verifier mutates storage before verification succeeds: every
run of `verifyAuthentication` either performs no adapter write, or performs
exactly the single counter update, and then only after the library reported
a verified response; every soft-error result has an empty write trace; and
`verifyRegistration` performs no storage write on any input. -/
theorem verifiers_write_only_after_verified
    (vr : VerifyAuthenticationArgs → Except String VerifiedAuthenticationResponse)
    (opts : Options) (cookie : Option PasskeyOptionsCookieData) (response : ClientResponse) :
    ((verifyAuthentication vr opts cookie response).writes = []
      ∨ ∃ a g id tr ck auth v,
          opts.adapter = some a ∧ a.getAuthenticator = some g ∧
          response = .objWithId id tr ∧ cookie = some ck ∧
          g (base64Decode id) = some auth ∧
          vr { responseId := id, authenticator := auth, expectedChallenge := ck.challenge
               expectedOrigin := opts.provider.relayingParty.origin
               expectedRPID := opts.provider.relayingParty.id
               requireUserVerification := true } = .ok v ∧
          v.verified = true ∧
          (verifyAuthentication vr opts cookie response).writes
            = [(auth, v.authenticationInfo.newCounter)])
    ∧ (∀ m, (verifyAuthentication vr opts cookie response).result = .soft m →
        (verifyAuthentication vr opts cookie response).writes = [])
    ∧ (∀ (vrr : VerifyRegistrationArgs → Except String VerifiedRegistrationResponse)
        (em : EmailParam),
        (verifyRegistration vrr opts cookie response em).writes = []) := by
  have key : (verifyAuthentication vr opts cookie response).writes = []
      ∨ ∃ a g id tr ck auth v,
          opts.adapter = some a ∧ a.getAuthenticator = some g ∧
          response = .objWithId id tr ∧ cookie = some ck ∧
          g (base64Decode id) = some auth ∧
          vr { responseId := id, authenticator := auth, expectedChallenge := ck.challenge
               expectedOrigin := opts.provider.relayingParty.origin
               expectedRPID := opts.provider.relayingParty.id
               requireUserVerification := true } = .ok v ∧
          v.verified = true ∧
          (verifyAuthentication vr opts cookie response).writes
            = [(auth, v.authenticationInfo.newCounter)] ∧
          (∀ m, (verifyAuthentication vr opts cookie response).result ≠ .soft m) := by
    rcases hA : opts.adapter with _ | a
    · left; simp [verifyAuthentication, hA]
    rcases hg : a.getAuthenticator with _ | g
    · left; simp [verifyAuthentication, hA, hg]
    rcases hu : a.getUserByAccount with _ | u
    · left; simp [verifyAuthentication, hA, hg, hu]
    rcases hw : a.updateAuthenticatorCounter with _ | w
    · left; simp [verifyAuthentication, hA, hg, hu, hw]
    rcases response with _ | _ | _ | ⟨id, tr⟩
    · left; simp [verifyAuthentication, hA, hg, hu, hw]
    · left; simp [verifyAuthentication, hA, hg, hu, hw]
    · left; simp [verifyAuthentication, hA, hg, hu, hw]
    rcases cookie with _ | ck
    · left; simp [verifyAuthentication, hA, hg, hu, hw]
    rcases hga : g (base64Decode id) with _ | auth
    · left; simp [verifyAuthentication, hA, hg, hu, hw, hga]
    rcases hvr : vr { responseId := id, authenticator := auth, expectedChallenge := ck.challenge, expectedOrigin := opts.provider.relayingParty.origin, expectedRPID := opts.provider.relayingParty.id, requireUserVerification := true } with e | v
    · left; simp [verifyAuthentication, hA, hg, hu, hw, hga, hvr]
    cases hv : v.verified with
    | false => left; simp [verifyAuthentication, hA, hg, hu, hw, hga, hvr, hv]
    | true =>
      right
      refine ⟨a, g, id, tr, ck, auth, v, rfl, hg, rfl, rfl, hga, hvr, hv, ?_, ?_⟩ <;>
        rcases huser : u opts.provider.id auth.providerAccountId with _ | user <;>
          simp [verifyAuthentication, hA, hg, hu, hw, hga, hvr, hv, huser]
  refine ⟨?_, ?_, ?_⟩
  · rcases key with h | ⟨a, g, id, tr, ck, auth, v, h1, h2, h3, h4, h5, h6, h7, h8, _⟩
    · exact Or.inl h
    · exact Or.inr ⟨a, g, id, tr, ck, auth, v, h1, h2, h3, h4, h5, h6, h7, h8⟩
  · intro m hm
    rcases key with h | ⟨_, _, _, _, _, _, _, _, _, _, _, _, _, _, _, hns⟩
    · exact h
    · exact absurd hm (hns m)
  · intro vrr em
    unfold verifyRegistration
    repeat' split
    all_goals rfl

/-- C6 witness: the soft-error conjunct applied to a concrete run with an
invalid response shape. -/
theorem verifiers_write_only_after_verified_witness :
    (verifyAuthentication libAuthNever optsWithAuth none .nonObject).writes = [] :=
  (verifiers_write_only_after_verified libAuthNever optsWithAuth none
    .nonObject).2.1 "Invalid response." (by decide)

/-- C10: `verifyRegistration` never accesses the adapter: its result is the
same for any adapter value (in particular for none), and it never throws a
missing-adapter or configuration error; by contrast `verifyAuthentication`
and options issuance (via `getUserAndAuthenticators`) fail fast with a
missing-adapter error when no adapter is configured. -/
theorem verifyRegistration_adapter_independent
    (vrr : VerifyRegistrationArgs → Except String VerifiedRegistrationResponse)
    (opts : Options) (x : Option Adapter) (cookie : Option PasskeyOptionsCookieData)
    (response : ClientResponse) (em : EmailParam) :
    verifyRegistration vrr { opts with adapter := x } cookie response em
      = verifyRegistration vrr { opts with adapter := none } cookie response em
    ∧ (∀ m, (verifyRegistration vrr opts cookie response em).result ≠ .fatal m)
    ∧ (∀ (vr : VerifyAuthenticationArgs → Except String VerifiedAuthenticationResponse)
        (cookie2 : Option PasskeyOptionsCookieData) (response2 : ClientResponse),
        opts.adapter = none →
        (verifyAuthentication vr opts cookie2 response2).result
          = .fatal "MissingAdapter: WebaAuthn verifyAuthentication requires an adapter.")
    ∧ (∀ (lib : CeremonyLib) (freshId email : String), opts.adapter = none →
        registrationOptions lib opts freshId email
          = .error "MissingAdapter: WebaAuthn getUserAndAuthenticators requires an adapter.") := by
  refine ⟨rfl, ?_, ?_, ?_⟩
  · intro m
    unfold verifyRegistration
    repeat' split
    all_goals simp
  · intro vr cookie2 response2 hA
    simp [verifyAuthentication, hA]
  · intro lib freshId email hA
    simp [registrationOptions, getUserAndAuthenticators, hA, Except.bind, Bind.bind]

/-- C10 witness: with no adapter configured, `verifyRegistration` still
returns its ordinary soft error while `verifyAuthentication` throws. -/
theorem verifyRegistration_adapter_independent_witness :
    (verifyRegistration libRegNever optsNoAdapter none .nonObject .nonString).result
      ≠ .fatal "MissingAdapter: WebaAuthn verifyAuthentication requires an adapter."
    ∧ (verifyAuthentication libAuthNever optsNoAdapter none .nonObject).result
      = .fatal "MissingAdapter: WebaAuthn verifyAuthentication requires an adapter."
    ∧ registrationOptions libDemo optsNoAdapter "fresh" "new@x.com"
      = .error "MissingAdapter: WebaAuthn getUserAndAuthenticators requires an adapter." :=
  ⟨(verifyRegistration_adapter_independent libRegNever optsNoAdapter none none
      .nonObject .nonString).2.1 "MissingAdapter: WebaAuthn verifyAuthentication requires an adapter.",
   (verifyRegistration_adapter_independent libRegNever optsNoAdapter none none
      .nonObject .nonString).2.2.1 libAuthNever none .nonObject rfl,
   (verifyRegistration_adapter_independent libRegNever optsNoAdapter none none
      .nonObject .nonString).2.2.2 libDemo "fresh" "new@x.com" rfl⟩

/-- When the email is falsy (absent or empty) the lookup chain yields no
authenticator list. -/
theorem getUserAndAuthenticators_falsy (opts : Options) (email : Option String)
    (auths : Option (List AdapterAuthenticator)) (user : Option AdapterUser)
    (h : getUserAndAuthenticators opts email = .ok (auths, user))
    (hf : truthyStr email = false) : auths = none := by
  unfold getUserAndAuthenticators at h
  split at h
  · exact absurd h (by simp)
  split at h
  · rcases email with _ | e
    · simp at h
      exact h.1.symm
    · simp [truthyStr] at hf
      subst hf
      simp at h
      exact h.1.symm
  · exact absurd h (by simp)

/-- Stated from the claim wording, for comparison with the code: the account
matching the supplied email has at least one stored authenticator (user
found, passkey account found, and the stored list is non-empty). -/
def accountHasAuthenticators (opts : Options) (email : Option String) : Bool :=
  match getUserAndAuthenticators opts email with
  | .ok (some (_ :: _), _) => true
  | _ => false

/-- User owning a passkey account whose stored authenticator list is empty. -/
def userE : AdapterUser := { id := "uE", name := none, email := "e@x", emailVerified := none }

/-- Adapter where user "e@x" has a passkey account "paE" with an empty (but
non-null) stored authenticator list. -/
def adapterEmptyAuthList : Adapter :=
  { getUserByEmail := some fun e => if e == "e@x" then some userE else none
    listLinkedAccounts := some fun uid =>
      if uid == "uE" then
        some [{ userId := "uE", type := "passkey", provider := "passkey"
                providerAccountId := "paE" }]
      else some []
    listAuthenticatorsByAccountId := some fun _ => some []
    getAuthenticator := some fun _ => none
    getUserByAccount := some fun _ _ => none
    updateAuthenticatorCounter := some specUpdateAuthenticatorCounter }

/-- Options with the empty-authenticator-list adapter. -/
def optsEmptyAuthList : Options :=
  { adapter := some adapterEmptyAuthList, provider := providerDemo }

/-- C8 counterexample: "restricts allowCredentials ... exactly when an email
is supplied and that account has authenticators" fails on the code: for an
email whose account exists but stores an empty authenticator list, the
adapter returns an empty (non-null) list and `authenticationOptions`
restricts `allowCredentials` to the empty list even though the account has
no authenticators. -/
theorem authenticationOptions_empty_list_cex :
    ¬ (∀ req out,
        authenticationOptions libDemo optsEmptyAuthList (some "e@x") = .ok (req, out) →
        (req.allowCredentials ≠ none ↔
          (truthyStr (some "e@x") = true
            ∧ accountHasAuthenticators optsEmptyAuthList (some "e@x") = true))) := by
  intro h
  have h2 := h
    { rpID := "example.com", allowCredentials := some [], userVerification := "preferred" }
    { challenge := "authChallenge" } (by decide)
  exact absurd ((h2.mp (by simp)).2) (by decide)

/-- C8 (amended): `registrationOptions` requests creation options that
exclude exactly the credentials of the authenticator list the adapter lookup
yields for the email, use the existing user id or the fresh id when no user
exists, and fix residentKey=preferred, userVerification=preferred,
requireResidentKey=true; `authenticationOptions` sets `allowCredentials` to
exactly the mapped authenticator list the adapter lookup yields, so it is
restricted exactly when an email is supplied and the lookup chain returns a
(possibly empty) list, and unrestricted otherwise. -/
theorem options_requests_credentials
    (lib : CeremonyLib) (opts : Options) (freshId email : String) (email2 : Option String) :
    (∀ req out, registrationOptions lib opts freshId email = .ok (req, out) →
      req.authenticatorSelection
          = { residentKey := "preferred", userVerification := "preferred"
              requireResidentKey := true }
        ∧ ∀ auths user, getUserAndAuthenticators opts (some email) = .ok (auths, user) →
            req.excludeCredentials = auths.map (fun l => l.map credDescriptorOf)
            ∧ req.userID = (match user with | some u => u.id | none => freshId))
    ∧ (∀ req out, authenticationOptions lib opts email2 = .ok (req, out) →
        req.userVerification = "preferred"
        ∧ ∀ auths user, getUserAndAuthenticators opts email2 = .ok (auths, user) →
            req.allowCredentials = auths.map (fun l => l.map credDescriptorOf)
            ∧ (req.allowCredentials ≠ none ↔
                (truthyStr email2 = true ∧ auths ≠ none))) := by
  constructor
  · intro req out h
    unfold registrationOptions at h
    cases hga : getUserAndAuthenticators opts (some email) with
    | error e => rw [hga] at h; simp [Except.bind, Bind.bind] at h
    | ok p =>
      rcases p with ⟨auths, user⟩
      rw [hga] at h
      simp [Except.bind, Bind.bind] at h
      obtain ⟨hreq, _⟩ := h
      subst hreq
      refine ⟨rfl, ?_⟩
      intro auths2 user2 hga2
      obtain ⟨ha2, hu2⟩ : auths = auths2 ∧ user = user2 := by
        have := hga2
        simp at this
        exact ⟨this.1, this.2⟩
      subst ha2 hu2
      refine ⟨rfl, ?_⟩
      cases user <;> rfl
  · intro req out h
    unfold authenticationOptions at h
    cases hga : getUserAndAuthenticators opts email2 with
    | error e => rw [hga] at h; simp [Except.bind, Bind.bind] at h
    | ok p =>
      rcases p with ⟨auths, user⟩
      rw [hga] at h
      simp [Except.bind, Bind.bind] at h
      obtain ⟨hreq, _⟩ := h
      subst hreq
      refine ⟨rfl, ?_⟩
      intro auths2 user2 hga2
      obtain ⟨ha2, hu2⟩ : auths = auths2 ∧ user = user2 := by
        have := hga2
        simp at this
        exact ⟨this.1, this.2⟩
      subst ha2 hu2
      refine ⟨rfl, ?_⟩
      constructor
      · intro hne
        have hauths : auths ≠ none := by
          intro hn
          subst hn
          exact hne rfl
        refine ⟨?_, hauths⟩
        cases hb : truthyStr email2 with
        | true => rfl
        | false => exact absurd (getUserAndAuthenticators_falsy opts email2 auths user hga hb) hauths
      · rintro ⟨-, hauths⟩
        cases auths with
        | none => exact absurd rfl hauths
        | some l => simp

/-- The registration request computed for the stored demo user. -/
def reqRegDemo : RegistrationOptionsRequest :=
  { userID := "user1"
    userName := "Demo User"
    userDisplayName := "Demo User"
    rpID := "example.com"
    rpName := "Demo"
    excludeCredentials := some [credDescriptorOf authDemo]
    authenticatorSelection :=
      { residentKey := "preferred", userVerification := "preferred", requireResidentKey := true } }

/-- C8 witness: the registration conjunct applied to the populated adapter. -/
theorem options_requests_credentials_witness :
    reqRegDemo.excludeCredentials
      = (some [authDemo] : Option (List AdapterAuthenticator)).map
          (fun l => l.map credDescriptorOf)
    ∧ reqRegDemo.userID
      = (match (some userDemo : Option AdapterUser) with | some u => u.id | none => "fresh") :=
  ((options_requests_credentials libDemo optsWithAuth "fresh" "exists@x.com" none).1
    reqRegDemo { challenge := "regChallenge", userId := "user1" } (by decide)).2
    (some [authDemo]) (some userDemo) (by decide)
